import Mathlib

/-!
Shallow embedding of the supervisor-side Sandbox controller and Call engine
of `sandboxed_api/sandbox.cc` (namespace `sapi`).

Conventions of the embedding:
* `sapi::Status` values become the inductive `SapiStatus`; only the error
  kinds the modelled code can produce are present.
* Every RPC or process-level action the controller performs on the worker is
  recorded as an `Event` in a trace; an operation returns
  `(status, new sandbox state, trace of actions it performed)`.
* External outcomes (remote malloc results, transport success, fork-server
  startup, `RunAsync`) are supplied by an oracle record `Env`, so the
  controller code stays deterministic given the oracle.
* Variables live in a heap `List Var` indexed by `Nat` ids; a pointer
  argument carries the id of its pointee and its sync policy bitmask, exactly
  as `v::Ptr` wraps a pointee `v::Var` plus `GetSyncType()`.
-/

namespace Sapi

/-- Variable types of the `v::Type` enum used by `sandbox.cc`
(`kInt`, `kFloat`, `kPointer`, `kFd`, `kStruct`, `kLenVal`, `kProto`). -/
inductive VType where
  | kInt
  | kFloat
  | kPointer
  | kFd
  | kStruct
  | kLenVal
  | kProto
deriving DecidableEq, Repr

/-- Status kinds produced by the modelled code paths of `sandbox.cc`
(`sapi::Status`). -/
inductive SapiStatus where
  | ok
  | unavailable (msg : String)
  | failedPrecondition (msg : String)
  | resourceExhausted (msg : String)
  | internal (msg : String)
  | invalidArgument (msg : String)
deriving DecidableEq, Repr

/-- Actions the controller performs against the worker.  `packArg i` records
the writes `rfcall.arg_size[i] = ...; rfcall.arg_type[i] = ...` (plus
`aux_type[i]`/`aux_size[i]` for pointers) into the per-argument arrays of the
`FuncCall` frame. -/
inductive Event where
  | allocRpc (id : Nat) (autoFree : Bool)
  | freeRpc (id : Nat)
  | transferTo (id : Nat)
  | transferFrom (id : Nat)
  | symbolRpc (name : String)
  | callRpc (func : String) (argc : Nat)
  | exitRpc
  | kill
  | setWallTime (limit : Nat)
  | awaitResult
  | packArg (i : Nat)
deriving DecidableEq, Repr

/-- A controller-side variable (`v::Var`): its type, payload size, optional
remote allocation address (`GetRemote()`), and for `kFd` variables the
worker-side descriptor number (`GetRemoteFd()`, `-1` when not yet sent). -/
structure Var where
  vtype : VType
  size : Nat
  remote : Option Nat
  remoteFd : Int
deriving DecidableEq, Repr

/-- Default variable used for out-of-range heap ids. -/
def dfltVar : Var := ⟨VType.kInt, 0, none, -1⟩

instance : Inhabited Var := ⟨dfltVar⟩

/-- The `sandbox2::Sandbox2` child handle (`s2_`); only its
`IsTerminated()` observation matters to `sandbox.cc`. -/
structure S2 where
  terminated : Bool
deriving DecidableEq, Repr

/-- The `sapi::Sandbox` state: optional child handle `s2_`, the once-only
fork client (`fork_client_` present or not), whether `result_` has been set
by `AwaitResult`, and the heap of variables reachable from call sites. -/
structure Sandbox where
  s2 : Option S2
  forkClient : Bool
  resultSet : Bool
  vars : List Var
deriving DecidableEq, Repr

/-- Oracle for everything outside `sandbox.cc`: remote allocation results,
transport outcomes, fd numbers assigned by the worker, embedded-blob and
fork-server startup outcomes. -/
structure Env where
  allocAddr : Nat → Option Nat
  freeOk : Nat → Bool
  transferToOk : Nat → Bool
  transferFromOk : Nat → Bool
  fdRemote : Nat → Int
  rpcCallOk : Bool
  exitOk : Bool
  embedToc : Bool
  embedFdOk : Bool
  resolvedLibPath : String
  forkServerOk : Bool
  runAsyncOk : Bool
  spawnTerminated : Bool

/-- Sync policy bitmask of `v::Pointable` as used by the source
(`GetSyncType() & SYNC_BEFORE`, `GetSyncType() & SYNC_AFTER`):
`SYNC_NONE = 0`. -/
def SYNC_NONE : Nat := 0

/-- Embeds `SYNC_BEFORE = 1`. -/
def SYNC_BEFORE : Nat := 1

/-- Embeds `SYNC_AFTER = 2`. -/
def SYNC_AFTER : Nat := 2

/-- Embeds `SYNC_BOTH = SYNC_BEFORE | SYNC_AFTER = 3`. -/
def SYNC_BOTH : Nat := 3

/-- Modelled from the spec: the per-argument arrays of the `FuncCall` wire
frame (declared in `call.h`, which is not among the source files) are sized
to a fixed maximum, "per-arg arrays sized to a fixed maximum (e.g. 12)".
A `packArg i` with `kArgsMax ≤ i` is a write past those fixed-size arrays. -/
def kArgsMax : Nat := 12

/-- An argument handed to `Sandbox::Call` (`v::Callable*`): either a plain
variable, or a `v::Ptr` wrapping a pointee variable id and a sync policy. -/
inductive Arg where
  | plain (id : Nat)
  | ptr (pointeeId : Nat) (sync : Nat)
deriving DecidableEq, Repr

/-- Heap lookup for a variable id. -/
def getVar (s : Sandbox) (id : Nat) : Var := s.vars.getD id dfltVar

/-- Replace the variable at `id` in the heap. -/
def setVar (s : Sandbox) (id : Nat) (v : Var) : Sandbox :=
  { s with vars := s.vars.set id v }

/-- Set the remote allocation address of the variable at `id`. -/
def setRemote (s : Sandbox) (id : Nat) (r : Option Nat) : Sandbox :=
  setVar s id { getVar s id with remote := r }

/-- Set the worker-side fd number of the variable at `id`. -/
def setRemoteFd (s : Sandbox) (id : Nat) (fd : Int) : Sandbox :=
  setVar s id { getVar s id with remoteFd := fd }

/-- Embeds `arg->GetType()`: `kPointer` for a `v::Ptr`, the variable's own type
otherwise. -/
def argType (s : Sandbox) (a : Arg) : VType :=
  match a with
  | Arg.plain id => (getVar s id).vtype
  | Arg.ptr _ _ => VType.kPointer

/-- Embeds `bool Sandbox::IsActive() const { return s2_ && !s2_->IsTerminated(); }` -/
def IsActive (s : Sandbox) : Bool :=
  match s.s2 with
  | some c => !c.terminated
  | none => false

/-- The status every boundary operation returns when the sandbox is not
active. -/
def unavailableNotActive : SapiStatus := SapiStatus.unavailable "Sandbox not active"

/-- Embeds `const sandbox2::Result& Sandbox::AwaitResult()`: when `s2_` is present,
fetch the final result (`result_ = s2_->AwaitResult()`) and reset the child
handle (`s2_.reset(nullptr)`); otherwise do nothing. -/
def AwaitResult (s : Sandbox) : Sandbox × List Event :=
  match s.s2 with
  | some _ => ({ s with resultSet := true, s2 := none }, [Event.awaitResult])
  | none => (s, [])

/-- Embeds `void Sandbox::Exit() const`: no-op unless active; sets a 1-second wall
time limit on the worker, issues the `Exit` RPC, and kills the worker
directly if that RPC fails.  It does not touch the controller state. -/
def Exit (env : Env) (s : Sandbox) : Sandbox × List Event :=
  if IsActive s = false then (s, [])
  else if env.exitOk then (s, [Event.setWallTime 1, Event.exitRpc])
  else (s, [Event.setWallTime 1, Event.exitRpc, Event.kill])

/-- Embeds `void Sandbox::Terminate(bool attempt_graceful_exit)`: returns
immediately unless active; gracefully asks the worker to exit (`Exit()`)
or kills it (`s2_->Kill()`), then awaits the final result
(`AwaitResult()`); logging of the result is not modelled. -/
def Terminate (env : Env) (graceful : Bool) (s : Sandbox) : Sandbox × List Event :=
  if IsActive s = false then (s, [])
  else
    let p1 := if graceful then Exit env s else (s, [Event.kill])
    let p2 := AwaitResult p1.1
    (p2.1, p1.2 ++ p2.2)

/-- Modelled from the spec: `v::Var::Allocate(channel, auto_free)`
(`var_abstract.cc` is not among the source files) — "requires `remote_ptr`
absent; sets it from the RPC reply; sets `auto_free`"; a failed remote
allocation surfaces as `ResourceExhausted` ("remote allocation failed"). -/
def varAllocate (env : Env) (id : Nat) (autoFree : Bool) (s : Sandbox) :
    SapiStatus × Sandbox × List Event :=
  match env.allocAddr id with
  | some addr => (SapiStatus.ok, setRemote s id (some addr), [Event.allocRpc id autoFree])
  | none => (SapiStatus.resourceExhausted "remote allocation failed", s,
      [Event.allocRpc id autoFree])

/-- Modelled from the spec: `v::Var::Free(channel)` — "requires `remote_ptr`
present; clears it on success"; a worker-side rejection is `Internal`. -/
def varFree (env : Env) (id : Nat) (s : Sandbox) :
    SapiStatus × Sandbox × List Event :=
  if env.freeOk id then (SapiStatus.ok, setRemote s id none, [Event.freeRpc id])
  else (SapiStatus.internal "worker rejected Free", s, [Event.freeRpc id])

/-- Modelled from the spec: `v::Var::TransferToSandboxee(channel, pid)` —
pushes the variable's local bytes to its remote address; for `kFd`
variables the controller fd is sent and the worker-side fd number recorded
(spec 4.C); transport loss surfaces as `Unavailable`. -/
def varTransferToSandboxee (env : Env) (id : Nat) (s : Sandbox) :
    SapiStatus × Sandbox × List Event :=
  if env.transferToOk id then
    let s1 := if (getVar s id).vtype = VType.kFd then setRemoteFd s id (env.fdRemote id) else s
    (SapiStatus.ok, s1, [Event.transferTo id])
  else (SapiStatus.unavailable "transport dropped", s, [Event.transferTo id])

/-- Modelled from the spec: `v::Var::TransferFromSandboxee(channel, pid)` —
pulls the variable's bytes back from its remote address into the local
buffer; transport loss surfaces as `Unavailable`. -/
def varTransferFromSandboxee (env : Env) (id : Nat) (s : Sandbox) :
    SapiStatus × Sandbox × List Event :=
  if env.transferFromOk id then (SapiStatus.ok, s, [Event.transferFrom id])
  else (SapiStatus.unavailable "transport dropped", s, [Event.transferFrom id])

/-- Embeds `sapi::Status Sandbox::Allocate(v::Var* var, bool automatic_free)`:
active check, then delegate to the variable's `Allocate`. -/
def Allocate (env : Env) (id : Nat) (automaticFree : Bool) (s : Sandbox) :
    SapiStatus × Sandbox × List Event :=
  if IsActive s = false then (unavailableNotActive, s, [])
  else varAllocate env id automaticFree s

/-- Embeds `sapi::Status Sandbox::Free(v::Var* var)`: active check, then delegate
to the variable's `Free`. -/
def Free (env : Env) (id : Nat) (s : Sandbox) :
    SapiStatus × Sandbox × List Event :=
  if IsActive s = false then (unavailableNotActive, s, [])
  else varFree env id s

/-- Embeds `sapi::Status Sandbox::TransferToSandboxee(v::Var* var)`: active check,
then delegate to the variable's `TransferToSandboxee`. -/
def TransferToSandboxee (env : Env) (id : Nat) (s : Sandbox) :
    SapiStatus × Sandbox × List Event :=
  if IsActive s = false then (unavailableNotActive, s, [])
  else varTransferToSandboxee env id s

/-- Embeds `sapi::Status Sandbox::TransferFromSandboxee(v::Var* var)`: active
check, then delegate to the variable's `TransferFromSandboxee`. -/
def TransferFromSandboxee (env : Env) (id : Nat) (s : Sandbox) :
    SapiStatus × Sandbox × List Event :=
  if IsActive s = false then (unavailableNotActive, s, [])
  else varTransferFromSandboxee env id s

/-- Embeds `sapi::Status Sandbox::Symbol(const char* symname, void** addr)`:
active check, then the `Symbol` RPC. -/
def Symbol (_env : Env) (symname : String) (s : Sandbox) :
    SapiStatus × Sandbox × List Event :=
  if IsActive s = false then (unavailableNotActive, s, [])
  else (SapiStatus.ok, s, [Event.symbolRpc symname])

/-- Embeds `sapi::Status Sandbox::SetWallTimeLimit(time_t limit) const`: active
check, then `s2_->SetWallTimeLimit(limit)`. -/
def SetWallTimeLimit (limit : Nat) (s : Sandbox) :
    SapiStatus × Sandbox × List Event :=
  if IsActive s = false then (unavailableNotActive, s, [])
  else (SapiStatus.ok, s, [Event.setWallTime limit])

/-- Embeds `sapi::Status Sandbox::SynchronizePtrBefore(v::Callable* ptr)`:
active check; non-pointers pass through; `SYNC_NONE` passes through; a
pointee without a remote allocation is allocated via
`Allocate(pointee, automatic_free=true)` for every policy other than
`SYNC_NONE`; bytes are pushed (`TransferToSandboxee`) only when the policy
has the `SYNC_BEFORE` bit. -/
def SynchronizePtrBefore (env : Env) (a : Arg) (s : Sandbox) :
    SapiStatus × Sandbox × List Event :=
  if IsActive s = false then (unavailableNotActive, s, [])
  else
    match a with
    | Arg.plain _ => (SapiStatus.ok, s, [])
    | Arg.ptr pid sync =>
      if sync = SYNC_NONE then (SapiStatus.ok, s, [])
      else
        let alloc :=
          if (getVar s pid).remote = none then Allocate env pid true s
          else (SapiStatus.ok, s, [])
        if alloc.1 ≠ SapiStatus.ok then alloc
        else if sync &&& SYNC_BEFORE = 0 then (SapiStatus.ok, alloc.2.1, alloc.2.2)
        else
          let tr := varTransferToSandboxee env pid alloc.2.1
          (tr.1, tr.2.1, alloc.2.2 ++ tr.2.2)

/-- Embeds `sapi::Status Sandbox::SynchronizePtrAfter(v::Callable* ptr) const`:
active check; non-pointers pass through; policies without the `SYNC_AFTER`
bit pass through; a pointee without a remote allocation is a
`FailedPrecondition` error; otherwise the bytes are pulled back
(`TransferFromSandboxee`).  The `p->ToString()` suffix the source appends
to the error message is not modelled. -/
def SynchronizePtrAfter (env : Env) (a : Arg) (s : Sandbox) :
    SapiStatus × Sandbox × List Event :=
  if IsActive s = false then (unavailableNotActive, s, [])
  else
    match a with
    | Arg.plain _ => (SapiStatus.ok, s, [])
    | Arg.ptr pid sync =>
      if sync &&& SYNC_AFTER = 0 then (SapiStatus.ok, s, [])
      else if (getVar s pid).remote = none then
        (SapiStatus.failedPrecondition
          "Trying to synchronize a variable which is not allocated in the sandboxee",
          s, [])
      else varTransferFromSandboxee env pid s

/-- Outcome of the fork-server startup section of `Sandbox::Init`
(the body of `if (!fork_client_) { ... }`): either an early error status,
or the state with `fork_client_` set. -/
def startForkServer (env : Env) (s : Sandbox) : SapiStatus ⊕ Sandbox :=
  if s.forkClient then Sum.inr s
  else
    if env.embedToc then
      if env.embedFdOk = false then
        Sum.inl (SapiStatus.unavailable "Could not create executable FD")
      else if env.forkServerOk = false then
        Sum.inl (SapiStatus.unavailable "Could not start the forkserver")
      else Sum.inr { s with forkClient := true }
    else if env.resolvedLibPath = "" then
      Sum.inl (SapiStatus.failedPrecondition "No SAPI library path given")
    else if env.forkServerOk = false then
      Sum.inl (SapiStatus.unavailable "Could not start the forkserver")
    else Sum.inr { s with forkClient := true }

/-- Embeds `sapi::Status Sandbox::Init()`: returns `Ok` immediately when already
active; otherwise starts the fork-server if `fork_client_` is absent
(resolving the library path from the embedded blob or `GetLibPath()`),
spawns a worker from the fork-server into `s2_`, and runs it
asynchronously; if `RunAsync` fails it calls `Terminate()` before
returning `Unavailable`.  Policy and executor construction are local and
not modelled; `env.spawnTerminated` is `s2_->IsTerminated()` for the
freshly spawned child. -/
def Init (env : Env) (s : Sandbox) : SapiStatus × Sandbox × List Event :=
  if IsActive s then (SapiStatus.ok, s, [])
  else
    match startForkServer env s with
    | Sum.inl st => (st, s, [])
    | Sum.inr s1 =>
      let s2 : Sandbox := { s1 with s2 := some ⟨env.spawnTerminated⟩ }
      if env.runAsyncOk then (SapiStatus.ok, s2, [])
      else
        let t := Terminate env true s2
        (SapiStatus.unavailable "Could not start the sandbox", t.1, t.2)

/-- One iteration of the argument loop of `Sandbox::Call` at index `i`:
write the per-argument records (`arg_size[i]`, `arg_type[i]`, and for
pointers `aux_type[i]`, `aux_size[i]`) — the `packArg i` event —, run
`SynchronizePtrBefore`, copy the inline value (a local write), and for
`kFd` arguments with no worker-side fd yet, `TransferToSandboxee` first. -/
def processOneArg (env : Env) (a : Arg) (i : Nat) (s : Sandbox) :
    SapiStatus × Sandbox × List Event :=
  let pre := SynchronizePtrBefore env a s
  if pre.1 ≠ SapiStatus.ok then (pre.1, pre.2.1, Event.packArg i :: pre.2.2)
  else
    match a with
    | Arg.ptr _ _ => (SapiStatus.ok, pre.2.1, Event.packArg i :: pre.2.2)
    | Arg.plain id =>
      if (getVar pre.2.1 id).vtype = VType.kFd ∧ (getVar pre.2.1 id).remoteFd < 0 then
        let tr := TransferToSandboxee env id pre.2.1
        (tr.1, tr.2.1, Event.packArg i :: (pre.2.2 ++ tr.2.2))
      else (SapiStatus.ok, pre.2.1, Event.packArg i :: pre.2.2)

/-- The argument loop of `Sandbox::Call` (`for (auto* arg : args)` with
running index `i`), short-circuiting on the first non-`Ok` status
(`SAPI_RETURN_IF_ERROR`). -/
def processArgs (env : Env) : List Arg → Nat → Sandbox →
    SapiStatus × Sandbox × List Event
  | [], _, s => (SapiStatus.ok, s, [])
  | a :: rest, i, s =>
    let one := processOneArg env a i s
    if one.1 ≠ SapiStatus.ok then one
    else
      let more := processArgs env rest (i + 1) one.2.1
      (more.1, more.2.1, one.2.2 ++ more.2.2)

/-- The post-call loop of `Sandbox::Call`
(`for (auto* arg : args) SAPI_RETURN_IF_ERROR(SynchronizePtrAfter(arg))`). -/
def syncAfterAll (env : Env) : List Arg → Sandbox →
    SapiStatus × Sandbox × List Event
  | [], s => (SapiStatus.ok, s, [])
  | a :: rest, s =>
    let one := SynchronizePtrAfter env a s
    if one.1 ≠ SapiStatus.ok then one
    else
      let more := syncAfterAll env rest one.2.1
      (more.1, more.2.1, one.2.2 ++ more.2.2)

/-- Embeds `sapi::Status Sandbox::Call(const std::string& func, v::Callable* ret,
std::initializer_list<v::Callable*> args)`: active check; fill the
`FuncCall` frame (`argc = args.size()`, name, the per-argument loop);
issue the `Call` RPC; unpack `fret` into `ret` (a local write; for a
`kFd` return, `TransferFromSandboxee(ret)`); then run the post-sync loop.
The source performs no bound check of `args.size()` against the
fixed-size per-argument arrays of the `FuncCall` frame. -/
def Call (env : Env) (func : String) (retId : Nat) (args : List Arg)
    (s : Sandbox) : SapiStatus × Sandbox × List Event :=
  if IsActive s = false then (unavailableNotActive, s, [])
  else
    let packed := processArgs env args 0 s
    if packed.1 ≠ SapiStatus.ok then packed
    else
      let tr1 := packed.2.2 ++ [Event.callRpc func args.length]
      if env.rpcCallOk = false then
        (SapiStatus.unavailable "transport dropped", packed.2.1, tr1)
      else
        let afterRet :=
          if (getVar packed.2.1 retId).vtype = VType.kFd then
            let t := TransferFromSandboxee env retId packed.2.1
            (t.1, t.2.1, tr1 ++ t.2.2)
          else (SapiStatus.ok, packed.2.1, tr1)
        if afterRet.1 ≠ SapiStatus.ok then afterRet
        else
          let post := syncAfterAll env args afterRet.2.1
          (post.1, post.2.1, afterRet.2.2 ++ post.2.2)

/-- A benign oracle: every external operation succeeds. -/
def env0 : Env :=
  { allocAddr := fun _ => some 4096
    freeOk := fun _ => true
    transferToOk := fun _ => true
    transferFromOk := fun _ => true
    fdRemote := fun _ => 7
    rpcCallOk := true
    exitOk := true
    embedToc := false
    embedFdOk := true
    resolvedLibPath := "stringop/lib/libstringop.so"
    forkServerOk := true
    runAsyncOk := true
    spawnTerminated := false }

/-- A concrete integer variable with no remote allocation. -/
def intVar : Var := ⟨VType.kInt, 8, none, -1⟩

/-- An active sandbox holding thirteen unallocated integer variables. -/
def sAct : Sandbox :=
  { s2 := some ⟨false⟩, forkClient := true, resultSet := false,
    vars := List.replicate 13 intVar }

/-- An uninitialized sandbox: no child handle, no fork client. -/
def sInact : Sandbox :=
  { s2 := none, forkClient := false, resultSet := false, vars := [intVar] }

/-- Thirteen plain integer arguments, one more than `kArgsMax`. -/
def args13 : List Arg := (List.range 13).map Arg.plain

/-- An active sandbox implies a present, non-terminated child handle. -/
theorem isActive_some (s : Sandbox) (h : IsActive s = true) :
    ∃ c, s.s2 = some c ∧ c.terminated = false := by
  cases hs : s.s2 with
  | none => simp [IsActive, hs] at h
  | some c =>
    refine ⟨c, rfl, ?_⟩
    simp [IsActive, hs] at h
    simpa using h

/-- The graceful-exit helper never changes the controller state. -/
theorem exit_state (env : Env) (s : Sandbox) : (Exit env s).1 = s := by
  unfold Exit
  split
  · rfl
  · split <;> rfl

/-- After `Terminate`, under any oracle and flag, the sandbox is inactive:
either it was already inactive and was left untouched, or `AwaitResult`
cleared the child handle. -/
theorem terminate_clears_active (env : Env) (g : Bool) (s : Sandbox) :
    IsActive (Terminate env g s).1 = false := by
  by_cases hact : IsActive s
  · obtain ⟨c, hc, -⟩ := isActive_some s hact
    unfold Terminate
    rw [hact]
    simp only [Bool.true_eq_false, if_false]
    have h1 : (if g then Exit env s else (s, [Event.kill])).1 = s := by
      cases g
      · rfl
      · simpa using exit_state env s
    rw [h1]
    simp [AwaitResult, hc, IsActive]
  · unfold Terminate
    rw [Bool.not_eq_true] at hact
    rw [hact]
    simp [hact]

/-- Claim C3: every boundary operation of the Sandbox (`Allocate`, `Free`,
`Call`, `Symbol`, `TransferToSandboxee`, `TransferFromSandboxee`,
`SetWallTimeLimit`, `SynchronizePtrBefore`, `SynchronizePtrAfter`) on a
non-active sandbox returns `Unavailable` ("Sandbox not active"), performs
no RPC (empty trace) and leaves the state unchanged. -/
theorem boundary_ops_require_active (env : Env) (s : Sandbox)
    (hin : IsActive s = false) (id : Nat) (autoFree : Bool)
    (symname func : String) (limit retId : Nat) (a : Arg) (args : List Arg) :
    Allocate env id autoFree s = (unavailableNotActive, s, []) ∧
    Free env id s = (unavailableNotActive, s, []) ∧
    Call env func retId args s = (unavailableNotActive, s, []) ∧
    Symbol env symname s = (unavailableNotActive, s, []) ∧
    TransferToSandboxee env id s = (unavailableNotActive, s, []) ∧
    TransferFromSandboxee env id s = (unavailableNotActive, s, []) ∧
    SetWallTimeLimit limit s = (unavailableNotActive, s, []) ∧
    SynchronizePtrBefore env a s = (unavailableNotActive, s, []) ∧
    SynchronizePtrAfter env a s = (unavailableNotActive, s, []) := by
  refine ⟨?_, ?_, ?_, ?_, ?_, ?_, ?_, ?_, ?_⟩ <;>
    simp [Allocate, Free, Call, Symbol, TransferToSandboxee,
      TransferFromSandboxee, SetWallTimeLimit, SynchronizePtrBefore,
      SynchronizePtrAfter, hin]

/-- Witness for C3 at a concrete uninitialized sandbox. -/
theorem boundary_ops_require_active_witness :
    IsActive sInact = false ∧
    (Allocate env0 0 true sInact = (unavailableNotActive, sInact, []) ∧
     Free env0 0 sInact = (unavailableNotActive, sInact, []) ∧
     Call env0 "reverse_string" 0 [Arg.plain 0] sInact =
       (unavailableNotActive, sInact, []) ∧
     Symbol env0 "reverse_string" sInact = (unavailableNotActive, sInact, []) ∧
     TransferToSandboxee env0 0 sInact = (unavailableNotActive, sInact, []) ∧
     TransferFromSandboxee env0 0 sInact = (unavailableNotActive, sInact, []) ∧
     SetWallTimeLimit 5 sInact = (unavailableNotActive, sInact, []) ∧
     SynchronizePtrBefore env0 (Arg.ptr 0 SYNC_BOTH) sInact =
       (unavailableNotActive, sInact, []) ∧
     SynchronizePtrAfter env0 (Arg.ptr 0 SYNC_BOTH) sInact =
       (unavailableNotActive, sInact, [])) :=
  ⟨rfl, boundary_ops_require_active env0 sInact rfl 0 true "reverse_string"
    "reverse_string" 5 0 (Arg.ptr 0 SYNC_BOTH) [Arg.plain 0]⟩

/-- Claim C9: on an active sandbox, a non-pointer argument passes through
both synchronization steps as a no-op: `Ok` status, unchanged state, no
RPC performed. -/
theorem scalar_args_sync_noop (env : Env) (s : Sandbox) (id : Nat)
    (hact : IsActive s = true) :
    SynchronizePtrBefore env (Arg.plain id) s = (SapiStatus.ok, s, []) ∧
    SynchronizePtrAfter env (Arg.plain id) s = (SapiStatus.ok, s, []) := by
  constructor <;> simp [SynchronizePtrBefore, SynchronizePtrAfter, hact]

/-- Witness for C9 at a concrete active sandbox and scalar variable. -/
theorem scalar_args_sync_noop_witness :
    IsActive sAct = true ∧
    (SynchronizePtrBefore env0 (Arg.plain 0) sAct = (SapiStatus.ok, sAct, []) ∧
     SynchronizePtrAfter env0 (Arg.plain 0) sAct = (SapiStatus.ok, sAct, [])) :=
  ⟨rfl, scalar_args_sync_noop env0 sAct 0 rfl⟩

/-- Claim C10: every return from `Terminate` leaves the sandbox with
`IsActive() = false`, regardless of the graceful flag and of RPC
failures (the oracle). -/
theorem terminate_leaves_inactive (env : Env) (g : Bool) (s : Sandbox) :
    IsActive (Terminate env g s).1 = false :=
  terminate_clears_active env g s

/-- Claim C6: `Init` on an already active sandbox returns `Ok` and changes
nothing, and `Terminate` on a non-active sandbox returns immediately and
changes nothing (both idempotence properties). -/
theorem init_terminate_idempotent (env : Env) (s t : Sandbox) (g : Bool) :
    (IsActive s = true → Init env s = (SapiStatus.ok, s, [])) ∧
    (IsActive t = false → Terminate env g t = (t, [])) := by
  constructor
  · intro h
    simp [Init, h]
  · intro h
    simp [Terminate, h]

/-- Witness for C6: an active sandbox for `Init`, a terminated-twice
sandbox (no child handle) for `Terminate`. -/
theorem init_terminate_idempotent_witness :
    (IsActive sAct = true ∧ Init env0 sAct = (SapiStatus.ok, sAct, [])) ∧
    (IsActive sInact = false ∧ Terminate env0 true sInact = (sInact, [])) :=
  ⟨⟨rfl, (init_terminate_idempotent env0 sAct sInact true).1 rfl⟩,
   ⟨rfl, (init_terminate_idempotent env0 sAct sInact true).2 rfl⟩⟩

/-- Claim C7: `Terminate(graceful=true)` on an active sandbox first sets a
1-second wall-time limit and issues the `Exit` RPC; when that RPC fails it
kills the worker directly; in either case it then awaits the worker's
final result (clearing the child handle) before returning. -/
theorem terminate_graceful_protocol (env : Env) (s : Sandbox)
    (hact : IsActive s = true) :
    Terminate env true s =
      ({ s with resultSet := true, s2 := none },
       [Event.setWallTime 1, Event.exitRpc] ++
         (if env.exitOk then [] else [Event.kill]) ++ [Event.awaitResult]) := by
  obtain ⟨c, hc, -⟩ := isActive_some s hact
  by_cases he : env.exitOk <;>
    simp [Terminate, Exit, AwaitResult, hact, hc, he]

/-- Witness for C7: graceful termination of a concrete active sandbox with
a healthy transport. -/
theorem terminate_graceful_protocol_witness :
    IsActive sAct = true ∧
    Terminate env0 true sAct =
      ({ sAct with resultSet := true, s2 := none },
       [Event.setWallTime 1, Event.exitRpc] ++
         (if env0.exitOk then [] else [Event.kill]) ++ [Event.awaitResult]) :=
  ⟨rfl, terminate_graceful_protocol env0 sAct rfl⟩

/-- Claim C4: in post-sync, a pointer argument whose policy includes
`SYNC_AFTER` has its pointee's bytes pulled back from the worker; if the
pointee has no remote allocation at that point, the operation fails with
`FailedPrecondition` and no transfer is attempted (empty trace). -/
theorem postsync_pulls_or_fails (env : Env) (s : Sandbox) (pid sync : Nat)
    (hact : IsActive s = true) (hafter : sync &&& SYNC_AFTER ≠ 0) :
    ((getVar s pid).remote = none →
      SynchronizePtrAfter env (Arg.ptr pid sync) s =
        (SapiStatus.failedPrecondition
          "Trying to synchronize a variable which is not allocated in the sandboxee",
         s, [])) ∧
    (∀ addr, (getVar s pid).remote = some addr →
      (SynchronizePtrAfter env (Arg.ptr pid sync) s).2.2 =
        [Event.transferFrom pid]) := by
  constructor
  · intro h
    simp [SynchronizePtrAfter, hact, hafter, h]
  · intro addr h
    by_cases ht : env.transferFromOk pid <;>
      simp [SynchronizePtrAfter, varTransferFromSandboxee, hact, hafter, h, ht]

/-- Witness for C4: an unallocated pointee with policy `SYNC_AFTER` on a
concrete active sandbox. -/
theorem postsync_pulls_or_fails_witness :
    IsActive sAct = true ∧ SYNC_AFTER &&& SYNC_AFTER ≠ 0 ∧
    (getVar sAct 0).remote = none ∧
    SynchronizePtrAfter env0 (Arg.ptr 0 SYNC_AFTER) sAct =
      (SapiStatus.failedPrecondition
        "Trying to synchronize a variable which is not allocated in the sandboxee",
       sAct, []) :=
  ⟨rfl, by decide, rfl,
   (postsync_pulls_or_fails env0 sAct 0 SYNC_AFTER rfl (by decide)).1 rfl⟩

/-- Counterexample for C2: the claim says pre-sync performs neither an
allocation nor a transfer for policy `After`; but on an active sandbox
with an unallocated pointee and policy `SYNC_AFTER`, `SynchronizePtrBefore`
performs an allocation RPC (`auto_free=true`). -/
theorem presync_allocates_for_after :
    (SynchronizePtrBefore env0 (Arg.ptr 0 SYNC_AFTER) sAct).2.2 =
      [Event.allocRpc 0 true] ∧
    (SynchronizePtrBefore env0 (Arg.ptr 0 SYNC_AFTER) sAct).2.2 ≠ [] := by
  constructor
  · rfl
  · decide

/-- Claim C2 (amended): on an active sandbox, pre-sync allocates the
pointee (with `auto_free=true`) exactly when the policy is not `None` and
the pointee has no remote allocation — in particular it also allocates for
policy `After` —, and (when allocation succeeds) it pushes the pointee's
bytes exactly when the policy includes `Before` (`Before` or `Both`); for
`None` it performs neither. -/
theorem presync_alloc_and_transfer_conditions (env : Env) (s : Sandbox)
    (pid sync : Nat) (hact : IsActive s = true) (hsync : sync < 4)
    (halloc : env.allocAddr pid ≠ none) :
    ((∃ b, Event.allocRpc pid b ∈ (SynchronizePtrBefore env (Arg.ptr pid sync) s).2.2) ↔
      (sync ≠ SYNC_NONE ∧ (getVar s pid).remote = none)) ∧
    ((Event.transferTo pid ∈ (SynchronizePtrBefore env (Arg.ptr pid sync) s).2.2) ↔
      sync &&& SYNC_BEFORE ≠ 0) := by
  obtain ⟨addr, ha⟩ := Option.ne_none_iff_exists'.mp halloc
  cases hr : (getVar s pid).remote with
  | none =>
    interval_cases sync <;>
      by_cases ht : env.transferToOk pid <;>
        simp [SynchronizePtrBefore, Allocate, varAllocate, varTransferToSandboxee,
          SYNC_NONE, SYNC_BEFORE, hact, hr, ha, ht]
  | some a =>
    interval_cases sync <;>
      by_cases ht : env.transferToOk pid <;>
        simp [SynchronizePtrBefore, Allocate, varAllocate, varTransferToSandboxee,
          SYNC_NONE, SYNC_BEFORE, hact, hr, ha, ht]

/-- Witness for the amended C2: policy `SYNC_AFTER`, unallocated pointee,
healthy oracle — allocation happens, no transfer happens. -/
theorem presync_alloc_and_transfer_conditions_witness :
    IsActive sAct = true ∧ SYNC_AFTER < 4 ∧ env0.allocAddr 0 ≠ none ∧
    (((∃ b, Event.allocRpc 0 b ∈
        (SynchronizePtrBefore env0 (Arg.ptr 0 SYNC_AFTER) sAct).2.2) ↔
      (SYNC_AFTER ≠ SYNC_NONE ∧ (getVar sAct 0).remote = none)) ∧
     ((Event.transferTo 0 ∈
        (SynchronizePtrBefore env0 (Arg.ptr 0 SYNC_AFTER) sAct).2.2) ↔
      SYNC_AFTER &&& SYNC_BEFORE ≠ 0)) :=
  ⟨rfl, by decide, by simp [env0],
   presync_alloc_and_transfer_conditions env0 sAct 0 SYNC_AFTER rfl (by decide)
     (by simp [env0])⟩

/-- Claim C8: `Init` fails with `FailedPrecondition` when no library path
is given (empty resolved path, no embedded blob); fails with `Unavailable`
when the fork-server cannot be started (embedded or path-based); on a
failure after fork-server startup (`RunAsync` fails) it calls `Terminate`
before returning `Unavailable`; and a failed `Init` never leaves an active
sandbox behind. -/
theorem init_failure_modes (env : Env) (s : Sandbox)
    (hin : IsActive s = false) (hfc : s.forkClient = false) :
    (env.embedToc = false → env.resolvedLibPath = "" →
      Init env s = (SapiStatus.failedPrecondition "No SAPI library path given", s, [])) ∧
    (env.forkServerOk = false → env.embedToc = false → env.resolvedLibPath ≠ "" →
      Init env s = (SapiStatus.unavailable "Could not start the forkserver", s, [])) ∧
    (env.forkServerOk = false → env.embedToc = true → env.embedFdOk = true →
      Init env s = (SapiStatus.unavailable "Could not start the forkserver", s, [])) ∧
    (∀ s1, startForkServer env s = Sum.inr s1 → env.runAsyncOk = false →
      Init env s =
        (SapiStatus.unavailable "Could not start the sandbox",
         (Terminate env true { s1 with s2 := some ⟨env.spawnTerminated⟩ }).1,
         (Terminate env true { s1 with s2 := some ⟨env.spawnTerminated⟩ }).2)) ∧
    (∀ st s' tr, Init env s = (st, s', tr) → st ≠ SapiStatus.ok →
      IsActive s' = false) := by
  refine ⟨?_, ?_, ?_, ?_, ?_⟩
  · intro hemb hpath
    simp [Init, startForkServer, hin, hfc, hemb, hpath]
  · intro hfs hemb hpath
    simp [Init, startForkServer, hin, hfc, hfs, hemb, hpath]
  · intro hfs hemb hfd
    simp [Init, startForkServer, hin, hfc, hfs, hemb, hfd]
  · intro s1 hsf hrun
    simp [Init, hin, hsf, hrun]
  · intro st s' tr heq hne
    rw [Init] at heq
    rw [hin] at heq
    simp only [Bool.false_eq_true, if_false] at heq
    cases hsf : startForkServer env s with
    | inl st0 =>
      rw [hsf] at heq
      simp only [Prod.mk.injEq] at heq
      obtain ⟨-, h2, -⟩ := heq
      rw [← h2]
      exact hin
    | inr s1 =>
      rw [hsf] at heq
      by_cases hrun : env.runAsyncOk
      · simp only [hrun, if_true, Prod.mk.injEq] at heq
        exact absurd heq.1.symm hne
      · simp only [hrun, Bool.false_eq_true, if_false, Prod.mk.injEq] at heq
        obtain ⟨-, h2, -⟩ := heq
        rw [← h2]
        exact terminate_clears_active env true _

/-- Witness for C8: a sandbox with no fork client and an oracle whose
resolved library path is empty. -/
theorem init_failure_modes_witness :
    IsActive sInact = false ∧ sInact.forkClient = false ∧
    ({ env0 with resolvedLibPath := "" }.embedToc = false →
      { env0 with resolvedLibPath := "" }.resolvedLibPath = "" →
      Init { env0 with resolvedLibPath := "" } sInact =
        (SapiStatus.failedPrecondition "No SAPI library path given", sInact, [])) :=
  ⟨rfl, rfl,
   (init_failure_modes { env0 with resolvedLibPath := "" } sInact rfl rfl).1⟩

/-- Claim C1 concerns the missing argument-count bound: `Sandbox::Call`
packs thirteen arguments — writing the per-argument record at index 12,
past the `kArgsMax = 12`-entry arrays of the `FuncCall` frame — and
completes with `Ok` instead of failing with `InvalidArgument`. -/
theorem call_overflows_arg_arrays :
    (Call env0 "duplicate_string" 0 args13 sAct).1 = SapiStatus.ok ∧
    Event.packArg 12 ∈ (Call env0 "duplicate_string" 0 args13 sAct).2.2 ∧
    kArgsMax ≤ 12 := by
  refine ⟨rfl, ?_, by decide⟩
  decide

/-- The trace of a `TransferToSandboxee` boundary call is empty or a single
push event. -/
theorem transferToSandboxee_trace (env : Env) (id : Nat) (s : Sandbox) :
    (TransferToSandboxee env id s).2.2 = [] ∨
    (TransferToSandboxee env id s).2.2 = [Event.transferTo id] := by
  unfold TransferToSandboxee varTransferToSandboxee
  split
  · exact Or.inl rfl
  · split
    · exact Or.inr rfl
    · exact Or.inr rfl

/-- Every event of a pre-sync trace is an allocation or a push to the
worker. -/
theorem synchronizePtrBefore_events (env : Env) (a : Arg) (s : Sandbox)
    (e : Event) (h : e ∈ (SynchronizePtrBefore env a s).2.2) :
    (∃ id b, e = Event.allocRpc id b) ∨ ∃ id, e = Event.transferTo id := by
  by_cases hact : IsActive s
  · cases a with
    | plain id => simp [SynchronizePtrBefore, hact] at h
    | ptr pid sync =>
      by_cases h0 : sync = SYNC_NONE
      · simp [SynchronizePtrBefore, hact, h0] at h
      · cases hr : (getVar s pid).remote with
        | none =>
          cases ha : env.allocAddr pid with
          | none =>
            simp [SynchronizePtrBefore, Allocate, varAllocate, hact, h0, hr,
              ha] at h
            exact Or.inl ⟨pid, true, h⟩
          | some addr =>
            by_cases hb : sync &&& SYNC_BEFORE = 0
            · simp [SynchronizePtrBefore, Allocate, varAllocate, hact, h0, hr,
                ha, hb] at h
              exact Or.inl ⟨pid, true, h⟩
            · by_cases ht : env.transferToOk pid <;>
              · simp [SynchronizePtrBefore, Allocate, varAllocate,
                  varTransferToSandboxee, hact, h0, hr, ha, hb, ht] at h
                rcases h with h | h
                · exact Or.inl ⟨pid, true, h⟩
                · exact Or.inr ⟨pid, h⟩
        | some addr =>
          by_cases hb : sync &&& SYNC_BEFORE = 0
          · simp [SynchronizePtrBefore, hact, h0, hr, hb] at h
          · by_cases ht : env.transferToOk pid <;>
            · simp [SynchronizePtrBefore, varTransferToSandboxee, hact, h0,
                hr, hb, ht] at h
              exact Or.inr ⟨pid, h⟩
  · rw [Bool.not_eq_true] at hact
    simp [SynchronizePtrBefore, hact] at h

/-- Every event of one argument-loop iteration at index `i` is the record
write at `i`, an allocation, or a push to the worker. -/
theorem processOneArg_events (env : Env) (a : Arg) (i : Nat) (s : Sandbox)
    (e : Event) (h : e ∈ (processOneArg env a i s).2.2) :
    e = Event.packArg i ∨ (∃ id b, e = Event.allocRpc id b) ∨
      ∃ id, e = Event.transferTo id := by
  have hpre := synchronizePtrBefore_events env a s e
  cases a with
  | ptr pid sync =>
    simp only [processOneArg] at h
    by_cases h1 : (SynchronizePtrBefore env (Arg.ptr pid sync) s).1 = SapiStatus.ok
    · simp only [ne_eq, h1, not_true_eq_false, if_false, List.mem_cons] at h
      rcases h with h | h
      · exact Or.inl h
      · exact Or.inr (hpre h)
    · simp only [ne_eq, h1, not_false_iff, if_true, List.mem_cons] at h
      rcases h with h | h
      · exact Or.inl h
      · exact Or.inr (hpre h)
  | plain id =>
    simp only [processOneArg] at h
    by_cases h1 : (SynchronizePtrBefore env (Arg.plain id) s).1 = SapiStatus.ok
    · simp only [ne_eq, h1, not_true_eq_false, if_false] at h
      by_cases h2 :
          (getVar (SynchronizePtrBefore env (Arg.plain id) s).2.1 id).vtype =
            VType.kFd ∧
          (getVar (SynchronizePtrBefore env (Arg.plain id) s).2.1 id).remoteFd < 0
      · rw [if_pos h2] at h
        simp only [List.mem_cons, List.mem_append] at h
        rcases h with h | h | h
        · exact Or.inl h
        · exact Or.inr (hpre h)
        · rcases transferToSandboxee_trace env id
              (SynchronizePtrBefore env (Arg.plain id) s).2.1 with ht | ht
          · rw [ht] at h
            simp at h
          · rw [ht] at h
            simp only [List.mem_singleton] at h
            exact Or.inr (Or.inr ⟨id, h⟩)
      · rw [if_neg h2] at h
        simp only [List.mem_cons] at h
        rcases h with h | h
        · exact Or.inl h
        · exact Or.inr (hpre h)
    · simp only [ne_eq, h1, not_false_iff, if_true, List.mem_cons] at h
      rcases h with h | h
      · exact Or.inl h
      · exact Or.inr (hpre h)

/-- Every event of the argument loop over `xs` starting at index `i` is a
record write at an index in `[i, i + xs.length)`, an allocation, or a push
to the worker. -/
theorem processArgs_events (env : Env) (xs : List Arg) (i : Nat) (s : Sandbox)
    (e : Event) (h : e ∈ (processArgs env xs i s).2.2) :
    (∃ j, e = Event.packArg j ∧ i ≤ j ∧ j < i + xs.length) ∨
    (∃ id b, e = Event.allocRpc id b) ∨ ∃ id, e = Event.transferTo id := by
  induction xs generalizing i s with
  | nil => simp [processArgs] at h
  | cons a rest ih =>
    simp only [processArgs] at h
    by_cases h1 : (processOneArg env a i s).1 = SapiStatus.ok
    · simp only [ne_eq, h1, not_true_eq_false, if_false, List.mem_append] at h
      rcases h with h | h
      · rcases processOneArg_events env a i s e h with h' | h'
        · exact Or.inl ⟨i, h', le_refl i, by simp⟩
        · exact Or.inr h'
      · rcases ih (i + 1) (processOneArg env a i s).2.1 h with ⟨j, hj, hj1, hj2⟩ | h'
        · refine Or.inl ⟨j, hj, by omega, by simp only [List.length_cons]; omega⟩
        · exact Or.inr h'
    · simp only [ne_eq, h1, not_false_iff, if_true] at h
      rcases processOneArg_events env a i s e h with h' | h'
      · exact Or.inl ⟨i, h', le_refl i, by simp⟩
      · exact Or.inr h'

/-- Splitting the argument loop at a successful prefix. -/
theorem processArgs_append (env : Env) (xs ys : List Arg) (i : Nat)
    (s s1 : Sandbox) (tr1 : List Event)
    (h : processArgs env xs i s = (SapiStatus.ok, s1, tr1)) :
    processArgs env (xs ++ ys) i s =
      ((processArgs env ys (i + xs.length) s1).1,
       (processArgs env ys (i + xs.length) s1).2.1,
       tr1 ++ (processArgs env ys (i + xs.length) s1).2.2) := by
  induction xs generalizing i s tr1 with
  | nil =>
    simp only [processArgs, Prod.mk.injEq] at h
    obtain ⟨-, h2, h3⟩ := h
    subst h2
    subst h3
    simp [processArgs]
  | cons a rest ih =>
    simp only [processArgs, List.cons_append] at h ⊢
    by_cases h1 : (processOneArg env a i s).1 = SapiStatus.ok
    · simp only [ne_eq, h1, not_true_eq_false, if_false, Prod.mk.injEq] at h ⊢
      obtain ⟨hst, hs1, htr⟩ := h
      have hmore : processArgs env rest (i + 1) (processOneArg env a i s).2.1 =
          (SapiStatus.ok, s1,
            (processArgs env rest (i + 1) (processOneArg env a i s).2.1).2.2) := by
        rw [Prod.ext_iff]
        refine ⟨hst, ?_⟩
        rw [Prod.ext_iff]
        exact ⟨hs1, rfl⟩
      have hih := ih (i + 1) (processOneArg env a i s).2.1 _ hmore
      simp only [List.append_eq, List.length_cons] at hih ⊢
      have harith : i + 1 + rest.length = i + (rest.length + 1) := by omega
      rw [harith] at hih
      subst htr
      rw [hih]
      exact ⟨rfl, rfl, by simp [List.append_assoc]⟩
    · simp only [ne_eq, h1, not_false_iff, if_true] at h
      rw [h] at h1
      simp at h1

/-- Claim C5: when pre-call synchronization fails at the argument in
position `pre.length` (after a successful prefix `pre`), `Call` returns
that error immediately: the `FuncCall` message is never sent (no `callRpc`
event), no post-sync transfer happens (no `transferFrom` event), and no
argument after the failing one is packed (no record write past index
`pre.length`). -/
theorem presync_failure_short_circuits (env : Env) (func : String)
    (retId : Nat) (pre post : List Arg) (bad : Arg) (s s1 s2 : Sandbox)
    (err : SapiStatus) (tr1 tr2 : List Event)
    (hact : IsActive s = true)
    (hpre : processArgs env pre 0 s = (SapiStatus.ok, s1, tr1))
    (hbad : processOneArg env bad pre.length s1 = (err, s2, tr2))
    (herr : err ≠ SapiStatus.ok) :
    Call env func retId (pre ++ bad :: post) s = (err, s2, tr1 ++ tr2) ∧
    (∀ f n, Event.callRpc f n ∉ tr1 ++ tr2) ∧
    (∀ p, Event.transferFrom p ∉ tr1 ++ tr2) ∧
    (∀ j, Event.packArg j ∈ tr1 ++ tr2 → j ≤ pre.length) := by
  have hrun : processArgs env (bad :: post) pre.length s1 = (err, s2, tr2) := by
    simp only [processArgs, hbad]
    simp [herr]
  have happ := processArgs_append env pre (bad :: post) 0 s s1 tr1 hpre
  rw [Nat.zero_add, hrun] at happ
  have hshape : ∀ e ∈ tr1 ++ tr2,
      (∃ j, e = Event.packArg j ∧ j ≤ pre.length) ∨
      (∃ id b, e = Event.allocRpc id b) ∨ ∃ id, e = Event.transferTo id := by
    intro e he
    rcases List.mem_append.mp he with he | he
    · rcases processArgs_events env pre 0 s e (by rw [hpre]; exact he) with
        ⟨j, hj, -, hj2⟩ | h'
      · exact Or.inl ⟨j, hj, by omega⟩
      · exact Or.inr h'
    · rcases processOneArg_events env bad pre.length s1 e
          (by rw [hbad]; exact he) with hj | h'
      · exact Or.inl ⟨pre.length, hj, le_refl _⟩
      · exact Or.inr h'
  refine ⟨?_, ?_, ?_, ?_⟩
  · simp only [Call, hact, Bool.true_eq_false, if_false, happ]
    simp [herr]
  · intro f n hmem
    rcases hshape _ hmem with ⟨j, hj, -⟩ | ⟨id, b, hj⟩ | ⟨id, hj⟩ <;> simp at hj
  · intro p hmem
    rcases hshape _ hmem with ⟨j, hj, -⟩ | ⟨id, b, hj⟩ | ⟨id, hj⟩ <;> simp at hj
  · intro j hmem
    rcases hshape _ hmem with ⟨j', hj, hle⟩ | ⟨id, b, hj⟩ | ⟨id, hj⟩
    · simp only [Event.packArg.injEq] at hj
      omega
    · simp at hj
    · simp at hj

/-- Oracle for the C5 witness: remote allocation fails for variable 1. -/
def envAllocFail : Env :=
  { env0 with allocAddr := fun id => if id = 1 then none else some 4096 }

/-- Witness for C5: a three-argument call where the pointer in the middle
fails pre-sync because its remote allocation fails. -/
theorem presync_failure_short_circuits_witness :
    IsActive sAct = true ∧
    processArgs envAllocFail [Arg.plain 0] 0 sAct =
      (SapiStatus.ok, sAct, [Event.packArg 0]) ∧
    processOneArg envAllocFail (Arg.ptr 1 SYNC_BOTH) [Arg.plain 0].length sAct =
      (SapiStatus.resourceExhausted "remote allocation failed", sAct,
       [Event.packArg 1, Event.allocRpc 1 true]) ∧
    SapiStatus.resourceExhausted "remote allocation failed" ≠ SapiStatus.ok ∧
    (Call envAllocFail "reverse_string" 2
        ([Arg.plain 0] ++ Arg.ptr 1 SYNC_BOTH :: [Arg.plain 2]) sAct =
       (SapiStatus.resourceExhausted "remote allocation failed", sAct,
        [Event.packArg 0] ++ [Event.packArg 1, Event.allocRpc 1 true]) ∧
     (∀ f n, Event.callRpc f n ∉
        [Event.packArg 0] ++ [Event.packArg 1, Event.allocRpc 1 true]) ∧
     (∀ p, Event.transferFrom p ∉
        [Event.packArg 0] ++ [Event.packArg 1, Event.allocRpc 1 true]) ∧
     (∀ j, Event.packArg j ∈
        [Event.packArg 0] ++ [Event.packArg 1, Event.allocRpc 1 true] →
        j ≤ [Arg.plain 0].length)) :=
  ⟨rfl, rfl, rfl, by decide,
   presync_failure_short_circuits envAllocFail "reverse_string" 2
     [Arg.plain 0] [Arg.plain 2] (Arg.ptr 1 SYNC_BOTH) sAct sAct sAct
     (SapiStatus.resourceExhausted "remote allocation failed")
     [Event.packArg 0] [Event.packArg 1, Event.allocRpc 1 true]
     rfl rfl rfl (by decide)⟩

end Sapi
